import Mathlib

/-!
Verification of the location-tracking and map-rendering core.

The definitions below are shallow embeddings of the TypeScript source:
floating-point numbers are modelled as real numbers, React state updates as
explicit state passing, and asynchronous callbacks as events applied to a
state-transition function.  Source locations are given next to each
definition.
-/

/-! ### Shared data model (src/unnamed/part_000) -/

/-- Tracking status enum, from `TrackingStatus` in src/unnamed/part_000. -/
inductive TrackingStatus
| inactive
| searching
| tracking
| paused
| reconnecting
| denied
deriving DecidableEq, Repr

/-- Platform geolocation error codes (`GeolocationPositionError.code`), the
`default` branch of the `switch` modelled as `unknown`. -/
inductive GeoErrorCode
| permissionDenied
| positionUnavailable
| timeout
| unknown
deriving DecidableEq, Repr

namespace Tracker

/-- Outcome of the `handleLocationError` callback: the tracking status after
the call, whether a hard error message was surfaced via `setError`, and
whether `startReconnection` was invoked. -/
structure ErrorOutcome where
  status : TrackingStatus
  errorSurfaced : Bool
  reconnectionStarted : Bool
deriving DecidableEq, Repr

/-- Embeds `handleLocationError` (src/unnamed/part_000 lines 515-562).
`PERMISSION_DENIED` calls `setTrackingStatus('denied')` and sets the error;
`POSITION_UNAVAILABLE` and the default branch assign the local variable
`newStatus = 'paused'` but never pass it to `setTrackingStatus`, so the
status is left unchanged and only the error message is set; `TIMEOUT`
calls `startReconnection()` when not already reconnecting (which moves the
status to `reconnecting` when the session is active) and returns before
`setError`. -/
def handleLocationError (code : GeoErrorCode) (status : TrackingStatus)
    (isReconnecting isTracking : Bool) : ErrorOutcome :=
  match code with
  | .permissionDenied => ⟨.denied, true, false⟩
  | .positionUnavailable => ⟨status, true, false⟩
  | .timeout =>
      if !isReconnecting && isTracking then ⟨.reconnecting, false, true⟩
      else ⟨status, false, false⟩
  | .unknown => ⟨status, true, false⟩

/-- Reconnection-relevant state: `trackingStatus`, `reconnectAttempts`,
`isReconnectingRef.current` and `isTracking`
(src/unnamed/part_000 lines 59-79). -/
structure ReconnState where
  status : TrackingStatus
  reconnectAttempts : Nat
  isReconnecting : Bool
  isTracking : Bool
deriving DecidableEq, Repr

/-- `RECONNECT_INTERVAL` (src/unnamed/part_000 line 31): the delay in
milliseconds between consecutive reconnection attempts. -/
def RECONNECT_INTERVAL : Nat := 1000

/-- Embeds `startReconnection` (src/unnamed/part_000 lines 386-455): a no-op
when a reconnection loop is already running or tracking is off; otherwise it
sets the reconnecting flag, moves the status to `reconnecting` and resets
`reconnectAttempts` to 0 (the first attempt is then issued immediately). -/
def startReconnection (s : ReconnState) : ReconnState :=
  if s.isReconnecting || !s.isTracking then s
  else { s with isReconnecting := true, status := .reconnecting, reconnectAttempts := 0 }

/-- Embeds one reconnection attempt together with its outcome
(`attemptReconnect` in src/unnamed/part_000 lines 394-452): the counter is
incremented as the attempt is issued; a successful fix clears the loop,
resets the counter to 0 and moves the status to `tracking` (via
`handleLocationUpdate` plus the explicit resets); a failure leaves the
incremented counter and schedules the next attempt after
`RECONNECT_INTERVAL` milliseconds. -/
def reconnectAttempt (s : ReconnState) (success : Bool) : ReconnState :=
  if !s.isTracking then { s with isReconnecting := false }
  else
    let s1 := { s with reconnectAttempts := s.reconnectAttempts + 1 }
    if success then
      { s1 with isReconnecting := false, reconnectAttempts := 0, status := .tracking }
    else s1

/-- Embeds the `TIMEOUT` branch of `handleLocationError`
(src/unnamed/part_000 lines 549-554) as it acts on the reconnection state:
`startReconnection()` is invoked when not already reconnecting. -/
def timeoutError (s : ReconnState) : ReconnState :=
  if !s.isReconnecting then startReconnection s else s

/-- Embeds the GPS staleness watchdog (src/unnamed/part_000 lines 316-338):
when the elapsed time since the last accepted fix exceeds
`GPS_TIMEOUT_THRESHOLD` while the status is `tracking`, the status moves to
`paused` and `startReconnection` is invoked when not already reconnecting. -/
def watchdogFire (s : ReconnState) : ReconnState :=
  if s.status = .tracking then
    let s1 := { s with status := .paused }
    if !s1.isReconnecting then startReconnection s1 else s1
  else s

end Tracker

/-! ### Tile loading and provider failover (src/unnamed/part_006) -/

namespace MapRender

/-- `MAX_RETRY_ATTEMPTS` (src/unnamed/part_006 line 16). -/
def MAX_RETRY_ATTEMPTS : Nat := 3

/-- `RETRY_DELAY` in milliseconds (src/unnamed/part_006 line 17). -/
def RETRY_DELAY : Nat := 1000

/-- Imagery providers, in the fixed fallback order used by the source
(`TileProvider` in src/unnamed/part_006 line 24). -/
inductive TileProvider
| esri
| google
| osm
deriving DecidableEq, Repr

/-- Provider-fallback state: `currentProvider` and the per-provider failure
counters `providerFallbackAttempts` (src/unnamed/part_006 lines 72-77). -/
structure ProviderState where
  currentProvider : TileProvider
  esriFails : Nat
  googleFails : Nat
  osmFails : Nat
deriving DecidableEq, Repr

/-- Failure counter of a given provider. -/
def ProviderState.fails (s : ProviderState) : TileProvider → Nat
  | .esri => s.esriFails
  | .google => s.googleFails
  | .osm => s.osmFails

/-- Embeds the `img.onload` handler of `loadTile`
(src/unnamed/part_006 lines 128-132): a successful tile load resets the
active provider's failure counter to 0. -/
def recordTileLoadSuccess (s : ProviderState) : ProviderState :=
  match s.currentProvider with
  | .esri => { s with esriFails := 0 }
  | .google => { s with googleFails := 0 }
  | .osm => { s with osmFails := 0 }

/-- Embeds the retry-exhaustion branch of `img.onerror`
(src/unnamed/part_006 lines 139-151): the active provider's failure counter
is incremented; if the active provider is `esri` and its counter reaches 3
the provider switches to `google`, and likewise `google` to `osm`. -/
def recordRetryExhausted (s : ProviderState) : ProviderState :=
  let s1 :=
    match s.currentProvider with
    | .esri => { s with esriFails := s.esriFails + 1 }
    | .google => { s with googleFails := s.googleFails + 1 }
    | .osm => { s with osmFails := s.osmFails + 1 }
  if s.currentProvider = .esri ∧ 3 ≤ s1.esriFails then
    { s1 with currentProvider := .google }
  else if s.currentProvider = .google ∧ 3 ≤ s1.googleFails then
    { s1 with currentProvider := .osm }
  else s1

/-- Embeds the retry recursion of `loadTile`
(src/unnamed/part_006 lines 117-157) for an uncached tile.  `outcome i`
tells whether the network load issued at attempt index `i` succeeds.  The
second argument is the number of retries still allowed
(`MAX_RETRY_ATTEMPTS - attempt`, so the guard `attempt < MAX_RETRY_ATTEMPTS`
of the source is exactly `0 < remaining`).  The result is the triple
(resolved successfully, number of load attempts issued, list of backoff
delays in milliseconds that were waited between attempts, each equal to
`RETRY_DELAY * 2 ^ attempt`). -/
def loadTileAux (outcome : Nat → Bool) : Nat → Nat → Bool × Nat × List Nat
  | attempt, 0 =>
      if outcome attempt then (true, 1, []) else (false, 1, [])
  | attempt, remaining + 1 =>
      if outcome attempt then (true, 1, [])
      else
        let rest := loadTileAux outcome (attempt + 1) remaining
        (rest.1, rest.2.1 + 1, RETRY_DELAY * 2 ^ attempt :: rest.2.2)

/-- `loadTile` started at attempt 0, as the source does. -/
def loadTile (outcome : Nat → Bool) : Bool × Nat × List Nat :=
  loadTileAux outcome 0 MAX_RETRY_ATTEMPTS

end MapRender

/-! ### Zoom and pan gestures (src/unnamed/part_006) -/

namespace MapRender

/-- `MIN_ZOOM` (src/unnamed/part_006 line 18). -/
def MIN_ZOOM : ℝ := 3

/-- `MAX_ZOOM` (src/unnamed/part_006 line 19). -/
def MAX_ZOOM : ℝ := 19

/-- `DEFAULT_ZOOM` (src/unnamed/part_006 line 20). -/
def DEFAULT_ZOOM : ℝ := 16

/-- `PINCH_ZOOM_SENSITIVITY` (src/unnamed/part_006 line 22). -/
noncomputable def PINCH_ZOOM_SENSITIVITY : ℝ := 5 / 1000

/-- Zoom-relevant state: the `zoom` state variable and
`pinchCenterZoomRef.current`, the zoom captured at pinch-gesture start
(src/unnamed/part_006 lines 78 and 93). -/
structure ZoomState where
  zoom : ℝ
  pinchCenterZoom : ℝ

/-- The zoom-changing input events of the renderer. -/
inductive ZoomEvent
| zoomIn
| zoomOut
| wheel (deltaY : ℝ)
| pinchStart
| pinchMove (distanceDelta : ℝ)

/-- Embeds the zoom updates of the source: `handleZoomIn`
(src/unnamed/part_006 lines 410-412), `handleZoomOut` (lines 414-416),
the pinch branch of `handleTouchMove` (lines 474-486, zoom delta applied to
the gesture-start zoom and clamped to `[MIN_ZOOM, MAX_ZOOM]`),
`handleTouchStart` capturing `pinchCenterZoomRef` (line 443), and
`handleWheel` (lines 594-599). -/
noncomputable def applyZoomEvent (s : ZoomState) : ZoomEvent → ZoomState
  | .zoomIn => { s with zoom := min (s.zoom + 1) MAX_ZOOM }
  | .zoomOut => { s with zoom := max (s.zoom - 1) MIN_ZOOM }
  | .wheel deltaY =>
      let delta : ℝ := if 0 < deltaY then -1 else 1
      { s with zoom := max MIN_ZOOM (min MAX_ZOOM (s.zoom + delta)) }
  | .pinchStart => { s with pinchCenterZoom := s.zoom }
  | .pinchMove distanceDelta =>
      let zoomDelta := distanceDelta * PINCH_ZOOM_SENSITIVITY
      { s with zoom := max MIN_ZOOM (min MAX_ZOOM (s.pinchCenterZoom + zoomDelta)) }

/-- The initial zoom state: `useState(DEFAULT_ZOOM)` for both the zoom and
the captured pinch zoom (src/unnamed/part_006 lines 78 and 93). -/
def initZoomState : ZoomState := { zoom := DEFAULT_ZOOM, pinchCenterZoom := DEFAULT_ZOOM }

/-- Zoom after a sequence of zoom events. -/
noncomputable def runZoomEvents (events : List ZoomEvent) : ZoomState :=
  events.foldl applyZoomEvent initZoomState

end MapRender

/-! ### Web Mercator projection and renderer geometry (src/unnamed/part_006) -/

namespace MapRender

/-- `TILE_SIZE` (src/unnamed/part_006 line 15). -/
def TILE_SIZE : ℝ := 256

/-- Embeds `latLonToWorldPixel` (src/unnamed/part_006 lines 32-45): the
world-pixel coordinates of a geographic point at a given (possibly
fractional) zoom. -/
noncomputable def latLonToWorldPixel (lat lon zoom : ℝ) : ℝ × ℝ :=
  let scale := (2 : ℝ) ^ zoom
  let worldSize := TILE_SIZE * scale
  let x := ((lon + 180) / 360) * worldSize
  let latRad := lat * Real.pi / 180
  let mercatorY := Real.log (Real.tan (Real.pi / 4 + latRad / 2))
  let y := (0.5 - mercatorY / (2 * Real.pi)) * worldSize
  (x, y)

/-- Embeds the accuracy-circle radius drawn by `drawMap`
(src/unnamed/part_006 line 334):
`Math.min(Math.max(location.accuracy / 10, 20), 100)`. -/
noncomputable def drawnAccuracyRadius (accuracy : ℝ) : ℝ :=
  min (max (accuracy / 10) 20) 100

/-- JavaScript truncation toward zero, used by the `%` operator. -/
noncomputable def jsTrunc (x : ℝ) : ℤ :=
  if 0 ≤ x then ⌊x⌋ else ⌈x⌉

/-- The JavaScript remainder operator `a % b` on numbers:
`a - b * trunc(a / b)`. -/
noncomputable def jsMod (a b : ℝ) : ℝ :=
  a - b * jsTrunc (a / b)

/-- Embeds the pan computation of `handleMouseMove`
(src/unnamed/part_006 lines 564-580): given the drag start (screen point and
map center) and the current pointer position, the new manual center with the
latitude clamped to `[-85, 85]` and the longitude wrapped with `%`. -/
noncomputable def handleMouseMovePan (startX startY centerLat centerLon curX curY zoom : ℝ) :
    ℝ × ℝ :=
  let deltaX := curX - startX
  let deltaY := curY - startY
  let scale := (2 : ℝ) ^ zoom
  let worldSize := TILE_SIZE * scale
  let latDelta := -(deltaY / worldSize) * 360
  let lonDelta := -(deltaX / worldSize) * 360
  (max (-85) (min 85 (centerLat + latDelta)),
   jsMod (centerLon + lonDelta + 180) 360 - 180)

/-- Embeds the single-touch drag branch of `handleTouchMove`
(src/unnamed/part_006 lines 487-513), textually identical to the
`handleMouseMove` pan computation. -/
noncomputable def handleTouchMovePan (startX startY centerLat centerLon curX curY zoom : ℝ) :
    ℝ × ℝ :=
  let deltaX := curX - startX
  let deltaY := curY - startY
  let scale := (2 : ℝ) ^ zoom
  let worldSize := TILE_SIZE * scale
  let latDelta := -(deltaY / worldSize) * 360
  let lonDelta := -(deltaX / worldSize) * 360
  (max (-85) (min 85 (centerLat + latDelta)),
   jsMod (centerLon + lonDelta + 180) 360 - 180)

end MapRender

/-! ### Projection utilities from src/lib/geo (src/unnamed/part_001) -/

namespace GeoLib

/-- Embeds `metersPerPixel` (src/unnamed/part_001 lines 482-486):
`40075017 * cos(latRad) / (256 * 2 ^ zoom)`. -/
noncomputable def metersPerPixel (latitude zoom : ℝ) : ℝ :=
  (40075017 * Real.cos (latitude * Real.pi / 180)) / (256 * (2 : ℝ) ^ zoom)

/-- Embeds `accuracyMetersToPixels` (src/unnamed/part_001 lines 495-498):
the ProjectionEngine formula `accM / metersPerPixel(lat, z)`. -/
noncomputable def accuracyMetersToPixels (accuracyMeters latitude zoom : ℝ) : ℝ :=
  accuracyMeters / metersPerPixel latitude zoom

/-- Embeds `latLngToTile` (src/unnamed/part_001 lines 503-511): continuous
tile coordinates of a geographic point. -/
noncomputable def latLngToTile (lat lng zoom : ℝ) : ℝ × ℝ :=
  let latRad := lat * Real.pi / 180
  let n := (2 : ℝ) ^ zoom
  (((lng + 180) / 360) * n,
   ((1 - Real.log (Real.tan latRad + 1 / Real.cos latRad) / Real.pi) / 2) * n)

/-- Embeds `tileToLatLng` (src/unnamed/part_001 lines 513-521): the inverse
of `latLngToTile`, returning (lat, lng). -/
noncomputable def tileToLatLng (x y zoom : ℝ) : ℝ × ℝ :=
  let n := (2 : ℝ) ^ zoom
  (Real.arctan (Real.sinh (Real.pi * (1 - 2 * y / n))) * 180 / Real.pi,
   (x / n) * 360 - 180)

end GeoLib

/-! ### Projection utilities from src/src/frontend/src/components/MapView.tsx -/

namespace MapViewTsx

/-- Embeds `latLonToTile` (src/src/frontend/src/components/MapView.tsx
lines 22-26): continuous tile coordinates of a geographic point. -/
noncomputable def latLonToTile (lat lon zoom : ℝ) : ℝ × ℝ :=
  (((lon + 180) / 360) * (2 : ℝ) ^ zoom,
   ((1 - Real.log (Real.tan (lat * Real.pi / 180) + 1 / Real.cos (lat * Real.pi / 180)) /
      Real.pi) / 2) * (2 : ℝ) ^ zoom)

/-- Embeds `tileToLatLon` (src/src/frontend/src/components/MapView.tsx
lines 28-33), returning (lat, lon). -/
noncomputable def tileToLatLon (x y zoom : ℝ) : ℝ × ℝ :=
  let n := (2 : ℝ) ^ zoom
  (Real.arctan (Real.sinh (Real.pi * (1 - 2 * y / n))) * 180 / Real.pi,
   (x / n) * 360 - 180)

end MapViewTsx

/-! ### Fix ingestion: trail and distance accumulation (src/unnamed/part_000) -/

namespace Tracker

/-- JavaScript `Math.atan2(y, x)`. -/
noncomputable def atan2 (y x : ℝ) : ℝ :=
  if 0 < x then Real.arctan (y / x)
  else if x < 0 then
    (if 0 ≤ y then Real.arctan (y / x) + Real.pi else Real.arctan (y / x) - Real.pi)
  else
    (if 0 < y then Real.pi / 2 else if y < 0 then -(Real.pi / 2) else 0)

/-- Embeds `calculateDistance` (src/unnamed/part_000 lines 41-54): the
haversine great-circle distance in meters. -/
noncomputable def calculateDistance (lat1 lon1 lat2 lon2 : ℝ) : ℝ :=
  let R : ℝ := 6371000
  let phi1 := lat1 * Real.pi / 180
  let phi2 := lat2 * Real.pi / 180
  let dPhi := (lat2 - lat1) * Real.pi / 180
  let dLam := (lon2 - lon1) * Real.pi / 180
  let a := Real.sin (dPhi / 2) * Real.sin (dPhi / 2) +
      Real.cos phi1 * Real.cos phi2 * Real.sin (dLam / 2) * Real.sin (dLam / 2)
  let c := 2 * atan2 (Real.sqrt a) (Real.sqrt (1 - a))
  R * c

/-- A position fix as consumed by `handleLocationUpdate` (the coordinate and
timestamp fields of `GeolocationPosition` that the trail logic reads). -/
structure Fix where
  latitude : ℝ
  longitude : ℝ
  timestamp : ℝ

/-- `TrailPoint` (src/unnamed/part_000 lines 22-26). -/
structure TrailPoint where
  latitude : ℝ
  longitude : ℝ
  timestamp : ℝ

/-- The trail point recorded for a fix (src/unnamed/part_000 lines 481-485). -/
def toTrailPoint (p : Fix) : TrailPoint :=
  ⟨p.latitude, p.longitude, p.timestamp⟩

/-- Trail-relevant tracking state: `trailPath`, `totalDistance` and
`previousPositionRef.current` (src/unnamed/part_000 lines 69-70 and 78). -/
structure TrackState where
  trail : List TrailPoint
  totalDistance : ℝ
  prev : Option Fix

/-- Embeds the trail/distance part of `handleLocationUpdate`
(src/unnamed/part_000 lines 457-512): when a previous fix exists, the
haversine distance from that previous fix is computed; only if it exceeds
1 m is the new fix appended to the trail and the distance added to
`totalDistance`; with no previous fix the trail is set to the single new
point.  In every case `previousPositionRef` becomes the new fix. -/
noncomputable def handleLocationUpdate (s : TrackState) (p : Fix) : TrackState :=
  match s.prev with
  | some q =>
      let distance := calculateDistance q.latitude q.longitude p.latitude p.longitude
      if 1 < distance then
        { trail := s.trail ++ [toTrailPoint p],
          totalDistance := s.totalDistance + distance,
          prev := some p }
      else
        { s with prev := some p }
  | none =>
      { trail := [toTrailPoint p], totalDistance := s.totalDistance, prev := some p }

/-- The state of a fresh session: empty trail, zero distance, no previous
fix. -/
def initTrackState : TrackState := ⟨[], 0, none⟩

/-- Sum of the great-circle distances between consecutive points of a
trail (the quantity named by the spec's invariant). -/
noncomputable def trailDistanceSum : List TrailPoint → ℝ
  | [] => 0
  | [_] => 0
  | p :: q :: rest =>
      calculateDistance p.latitude p.longitude q.latitude q.longitude +
        trailDistanceSum (q :: rest)

/-- Sum over consecutive accepted fixes of the fix-to-fix distance, counting
only pairs more than 1 m apart: the quantity `totalDistance` actually
accumulates. -/
noncomputable def fixPairSum : Fix → List Fix → ℝ
  | _, [] => 0
  | q, p :: rest =>
      (if 1 < calculateDistance q.latitude q.longitude p.latitude p.longitude then
        calculateDistance q.latitude q.longitude p.latitude p.longitude
      else 0) + fixPairSum p rest

/-- First fix of the counterexample runs: latitude 0, longitude 0. -/
def fixA : Fix := ⟨0, 0, 0⟩

/-- Second fix: 0.000008 degrees of latitude north of `fixA`
(about 0.89 m, within the 1 m jitter threshold). -/
noncomputable def fixB : Fix := ⟨8 / 1000000, 0, 1⟩

/-- Third fix: 0.000005 degrees of latitude south of `fixA` (about 0.56 m
from `fixA`, but about 1.45 m from `fixB`). -/
noncomputable def fixC : Fix := ⟨-(5 / 1000000), 0, 2⟩

end Tracker

/-! ## Theorems -/

/-! ### Helper lemmas -/

lemma MapRender.zoomState_invariant (s : MapRender.ZoomState) (e : MapRender.ZoomEvent)
    (hz1 : MapRender.MIN_ZOOM ≤ s.zoom) (hz2 : s.zoom ≤ MapRender.MAX_ZOOM)
    (hp1 : MapRender.MIN_ZOOM ≤ s.pinchCenterZoom)
    (hp2 : s.pinchCenterZoom ≤ MapRender.MAX_ZOOM) :
    MapRender.MIN_ZOOM ≤ (MapRender.applyZoomEvent s e).zoom ∧
    (MapRender.applyZoomEvent s e).zoom ≤ MapRender.MAX_ZOOM ∧
    MapRender.MIN_ZOOM ≤ (MapRender.applyZoomEvent s e).pinchCenterZoom ∧
    (MapRender.applyZoomEvent s e).pinchCenterZoom ≤ MapRender.MAX_ZOOM := by
  have hmm : MapRender.MIN_ZOOM ≤ MapRender.MAX_ZOOM := by
    norm_num [MapRender.MIN_ZOOM, MapRender.MAX_ZOOM]
  cases e with
  | zoomIn =>
      refine ⟨le_min (by linarith) ?_, min_le_right _ _, hp1, hp2⟩
      linarith
  | zoomOut =>
      exact ⟨le_max_right _ _, max_le (by linarith) hmm, hp1, hp2⟩
  | wheel deltaY =>
      exact ⟨le_max_left _ _, max_le hmm (min_le_left _ _), hp1, hp2⟩
  | pinchStart =>
      exact ⟨hz1, hz2, hz1, hz2⟩
  | pinchMove distanceDelta =>
      exact ⟨le_max_left _ _, max_le hmm (min_le_left _ _), hp1, hp2⟩

/-- C8: Starting from the default zoom, after any finite sequence of
zoom-in, zoom-out, wheel-zoom and pinch-zoom operations with arbitrary
input deltas, the zoom value always lies within [MIN_ZOOM, MAX_ZOOM]. -/
theorem zoom_always_in_bounds (events : List MapRender.ZoomEvent) :
    MapRender.MIN_ZOOM ≤ (MapRender.runZoomEvents events).zoom ∧
    (MapRender.runZoomEvents events).zoom ≤ MapRender.MAX_ZOOM := by
  suffices h : ∀ (s : MapRender.ZoomState),
      MapRender.MIN_ZOOM ≤ s.zoom → s.zoom ≤ MapRender.MAX_ZOOM →
      MapRender.MIN_ZOOM ≤ s.pinchCenterZoom → s.pinchCenterZoom ≤ MapRender.MAX_ZOOM →
      MapRender.MIN_ZOOM ≤ (events.foldl MapRender.applyZoomEvent s).zoom ∧
        (events.foldl MapRender.applyZoomEvent s).zoom ≤ MapRender.MAX_ZOOM by
    have h0 : MapRender.MIN_ZOOM ≤ MapRender.DEFAULT_ZOOM ∧
        MapRender.DEFAULT_ZOOM ≤ MapRender.MAX_ZOOM := by
      norm_num [MapRender.MIN_ZOOM, MapRender.MAX_ZOOM, MapRender.DEFAULT_ZOOM]
    exact h MapRender.initZoomState h0.1 h0.2 h0.1 h0.2
  induction events with
  | nil => intro s h1 h2 _ _; exact ⟨h1, h2⟩
  | cons e rest ih =>
      intro s h1 h2 h3 h4
      obtain ⟨k1, k2, k3, k4⟩ := MapRender.zoomState_invariant s e h1 h2 h3 h4
      exact ih (MapRender.applyZoomEvent s e) k1 k2 k3 k4

/-- C4: Evaluating `handleLocationError` at each platform error while
tracking.  A `PermissionDenied` error moves the status to `denied` and a
`Timeout` error triggers reconnection without surfacing a hard error, as the
claim states; but a `PositionUnavailable` (and an unknown) error leaves the
status at `tracking` instead of moving it to `paused` — the handler computes
`newStatus = 'paused'` and never applies it, and no reconnection is
attempted. -/
theorem handleLocationError_positionUnavailable_keeps_status :
    (Tracker.handleLocationError .permissionDenied .tracking false true).status = .denied ∧
    (Tracker.handleLocationError .timeout .tracking false true).status = .reconnecting ∧
    (Tracker.handleLocationError .timeout .tracking false true).errorSurfaced = false ∧
    (Tracker.handleLocationError .timeout .tracking false true).reconnectionStarted = true ∧
    (Tracker.handleLocationError .positionUnavailable .tracking false true).status
      = .tracking ∧
    (Tracker.handleLocationError .positionUnavailable .tracking false true).status
      ≠ .paused ∧
    (Tracker.handleLocationError .positionUnavailable .tracking false true).reconnectionStarted
      = false ∧
    (Tracker.handleLocationError .unknown .tracking false true).status ≠ .paused := by
  decide

/-- C7 counterexample: from an active tracking session, a `Timeout` error
moves the status directly from `tracking` to `reconnecting`; it never passes
through `paused`, and further timeout errors while reconnecting change
nothing.  This refutes the claimed `Tracking → Paused → Reconnecting` path
for consecutive timeout errors. -/
theorem timeoutError_skips_paused :
    (Tracker.timeoutError ⟨.tracking, 0, false, true⟩).status
        = TrackingStatus.reconnecting ∧
    (Tracker.timeoutError ⟨.tracking, 0, false, true⟩).status ≠ TrackingStatus.paused ∧
    Tracker.timeoutError (Tracker.timeoutError ⟨.tracking, 0, false, true⟩)
        = Tracker.timeoutError ⟨.tracking, 0, false, true⟩ := by
  decide

/-- C7 (amended): from any active, non-reconnecting tracking state, a
`Timeout` error starts reconnection with the status moving directly to
`reconnecting` and the attempt counter reset to 0; attempts are retried
every `RECONNECT_INTERVAL` (1000) ms; after three failed attempts the
counter reads 3 and the status is still `reconnecting`; the first
successful fix then resets the counter to 0 and returns the status to
`tracking`.  The `paused` status arises only from the staleness watchdog,
not from timeout errors. -/
theorem reconnection_counts_and_recovery (s : Tracker.ReconnState)
    (htrack : s.isTracking = true) (hrec : s.isReconnecting = false)
    (hstatus : s.status = .tracking) :
    (Tracker.timeoutError s).status = .reconnecting ∧
    (Tracker.timeoutError s).reconnectAttempts = 0 ∧
    Tracker.RECONNECT_INTERVAL = 1000 ∧
    (let t := Tracker.reconnectAttempt (Tracker.reconnectAttempt
        (Tracker.reconnectAttempt (Tracker.timeoutError s) false) false) false
     t.reconnectAttempts = 3 ∧ t.status = .reconnecting ∧
       (Tracker.reconnectAttempt t true).reconnectAttempts = 0 ∧
       (Tracker.reconnectAttempt t true).status = .tracking) ∧
    (Tracker.watchdogFire s).status = .reconnecting ∧
    ({ s with status := .paused, isTracking := false } : Tracker.ReconnState).status
      = .paused := by
  obtain ⟨st, n, r, tr⟩ := s
  simp only at htrack hrec hstatus
  subst htrack; subst hrec; subst hstatus
  simp [Tracker.timeoutError, Tracker.startReconnection, Tracker.reconnectAttempt,
    Tracker.watchdogFire, Tracker.RECONNECT_INTERVAL]

/-- Witness for `reconnection_counts_and_recovery` at a concrete state. -/
theorem reconnection_counts_and_recovery_witness :
    (Tracker.timeoutError ⟨.tracking, 0, false, true⟩).status = .reconnecting ∧
    (Tracker.timeoutError ⟨.tracking, 0, false, true⟩).reconnectAttempts = 0 := by
  have h := reconnection_counts_and_recovery ⟨.tracking, 0, false, true⟩ rfl rfl rfl
  exact ⟨h.1, h.2.1⟩

/-- C6 counterexample: an uncached tile whose network loads all fail is
issued 4 load attempts (the initial attempt plus `MAX_RETRY_ATTEMPTS = 3`
retries) before `loadTile` rejects — not 3 — and a tile whose first three
attempts fail but whose fourth succeeds still resolves successfully, so
three failed attempts never cause the load to fail. -/
theorem loadTile_four_attempts :
    (MapRender.loadTile (fun _ => false)).2.1 = 4 ∧
    (MapRender.loadTile (fun _ => false)).2.1 ≠ 3 ∧
    (MapRender.loadTile (fun i => i == 3)).1 = true := by
  decide

/-- C6 (amended): `loadTile` fails only after 4 load attempts (one initial
attempt plus 3 retries) with exponential backoff — delays 1000·2^k ms, i.e.
1000, 2000, 4000 ms; on any outcome at most 4 attempts are issued.  Each
exhaustion of retries increments the active provider's failure counter, and
when that counter reaches 3 the active provider switches in the fixed order
esri → google → osm; a successful tile load resets the active provider's
counter to 0 and keeps the provider. -/
theorem tile_retry_and_failover (outcome : Nat → Bool) (s : MapRender.ProviderState)
    (hfail : (MapRender.loadTile outcome).1 = false) :
    (MapRender.loadTile outcome).2.1 = 4 ∧
    (MapRender.loadTile outcome).2.2 = [1000, 2000, 4000] ∧
    (∀ g : Nat → Bool, (MapRender.loadTile g).2.1 ≤ 4) ∧
    (MapRender.recordTileLoadSuccess s).fails s.currentProvider = 0 ∧
    (MapRender.recordTileLoadSuccess s).currentProvider = s.currentProvider ∧
    (MapRender.recordRetryExhausted s).fails s.currentProvider
      = s.fails s.currentProvider + 1 ∧
    (s.currentProvider = .esri → s.esriFails = 2 →
      (MapRender.recordRetryExhausted s).currentProvider = .google) ∧
    (s.currentProvider = .esri → s.esriFails + 1 < 3 →
      (MapRender.recordRetryExhausted s).currentProvider = .esri) ∧
    (s.currentProvider = .google → s.googleFails = 2 →
      (MapRender.recordRetryExhausted s).currentProvider = .osm) ∧
    (s.currentProvider = .osm →
      (MapRender.recordRetryExhausted s).currentProvider = .osm) := by
  have hbound : ∀ g : Nat → Bool, (MapRender.loadTile g).2.1 ≤ 4 := by
    intro g
    simp only [MapRender.loadTile, MapRender.MAX_RETRY_ATTEMPTS, MapRender.loadTileAux]
    cases g 0 <;> cases g 1 <;> cases g 2 <;> cases g 3 <;> simp
  have hcount : (MapRender.loadTile outcome).2.1 = 4 ∧
      (MapRender.loadTile outcome).2.2 = [1000, 2000, 4000] := by
    simp only [MapRender.loadTile, MapRender.MAX_RETRY_ATTEMPTS,
      MapRender.loadTileAux] at hfail ⊢
    cases h0 : outcome 0 <;> cases h1 : outcome 1 <;> cases h2 : outcome 2 <;>
      cases h3 : outcome 3 <;>
      simp [h0, h1, h2, h3, MapRender.RETRY_DELAY] at hfail ⊢
  refine ⟨hcount.1, hcount.2, hbound, ?_, ?_, ?_, ?_, ?_, ?_, ?_⟩
  · obtain ⟨p, e, g, o⟩ := s
    cases p <;> simp [MapRender.recordTileLoadSuccess, MapRender.ProviderState.fails]
  · obtain ⟨p, e, g, o⟩ := s
    cases p <;> simp [MapRender.recordTileLoadSuccess]
  · obtain ⟨p, e, g, o⟩ := s
    cases p <;>
      simp only [MapRender.recordRetryExhausted, MapRender.ProviderState.fails] <;>
      split <;> simp_all [MapRender.ProviderState.fails] <;>
      split <;> simp_all [MapRender.ProviderState.fails]
  · intro hp he
    obtain ⟨p, e, g, o⟩ := s
    simp only at hp he
    subst hp; subst he
    simp [MapRender.recordRetryExhausted]
  · intro hp he
    obtain ⟨p, e, g, o⟩ := s
    simp only at hp he
    subst hp
    have hlt : ¬ 3 ≤ e + 1 := by omega
    simp [MapRender.recordRetryExhausted, hlt]
  · intro hp hg
    obtain ⟨p, e, g, o⟩ := s
    simp only at hp hg
    subst hp; subst hg
    simp [MapRender.recordRetryExhausted]
  · intro hp
    obtain ⟨p, e, g, o⟩ := s
    simp only at hp
    subst hp
    simp [MapRender.recordRetryExhausted]

/-- Witness for `tile_retry_and_failover`: all-failing outcomes with the
initial provider state. -/
theorem tile_retry_and_failover_witness :
    (MapRender.loadTile (fun _ => false)).2.2 = [1000, 2000, 4000] ∧
    (MapRender.recordRetryExhausted ⟨.esri, 2, 0, 0⟩).currentProvider = .google := by
  have h := tile_retry_and_failover (fun _ => false) ⟨.esri, 2, 0, 0⟩ (by decide)
  exact ⟨h.2.1, h.2.2.2.2.2.2.1 rfl rfl⟩

/-- C10: after every pan step (mouse drag or single-touch drag) the
resulting manual center latitude lies within [-85, 85], for every drag
start, pointer position and zoom. -/
theorem pan_center_latitude_in_bounds
    (startX startY centerLat centerLon curX curY zoom : ℝ) :
    -85 ≤ (MapRender.handleMouseMovePan startX startY centerLat centerLon curX curY zoom).1 ∧
    (MapRender.handleMouseMovePan startX startY centerLat centerLon curX curY zoom).1 ≤ 85 ∧
    -85 ≤ (MapRender.handleTouchMovePan startX startY centerLat centerLon curX curY zoom).1 ∧
    (MapRender.handleTouchMovePan startX startY centerLat centerLon curX curY zoom).1 ≤ 85 := by
  refine ⟨le_max_left _ _, max_le (by norm_num) (min_le_left _ _),
    le_max_left _ _, max_le (by norm_num) (min_le_left _ _)⟩

/-- C5 counterexample: at accuracy 5 m, latitude 0 and zoom 16 the renderer
draws the accuracy circle with radius `min(max(5/10, 20), 100) = 20` pixels,
while the ProjectionEngine formula gives
`5 / metersPerPixel(0, 16) = 5·256·2^16/40075017 ≈ 2.09` pixels: the two
differ, so the drawn radius is not `accuracyMeters / metersPerPixel`. -/
theorem drawnAccuracyRadius_ne_projection_formula :
    MapRender.drawnAccuracyRadius 5 = 20 ∧
    GeoLib.accuracyMetersToPixels 5 0 16 = 83886080 / 40075017 ∧
    MapRender.drawnAccuracyRadius 5 ≠ GeoLib.accuracyMetersToPixels 5 0 16 := by
  have h1 : MapRender.drawnAccuracyRadius 5 = 20 := by
    rw [MapRender.drawnAccuracyRadius]
    norm_num
  have hpow : (2 : ℝ) ^ (16 : ℝ) = 65536 := by
    rw [show (16 : ℝ) = ((16 : ℕ) : ℝ) by norm_num, Real.rpow_natCast]
    norm_num
  have h2 : GeoLib.accuracyMetersToPixels 5 0 16 = 83886080 / 40075017 := by
    rw [GeoLib.accuracyMetersToPixels, GeoLib.metersPerPixel]
    rw [show (0 : ℝ) * Real.pi / 180 = 0 by ring, Real.cos_zero, hpow]
    norm_num
  refine ⟨h1, h2, ?_⟩
  rw [h1, h2]
  norm_num

/-- C5 (amended): for every rendered frame with a current location, `drawMap`
draws the accuracy circle with pixel radius `min(max(accuracy/10, 20), 100)`
— always between 20 and 100 pixels, equal to `accuracy/10` exactly when the
accuracy lies in [200 m, 1000 m], and independent of latitude and zoom —
rather than with the ProjectionEngine formula
`accuracyRadiusPixels(accM, lat, z) = accM / metersPerPixel(lat, z)`, which
the renderer does not call. -/
theorem drawnAccuracyRadius_clamped (accuracy : ℝ) :
    20 ≤ MapRender.drawnAccuracyRadius accuracy ∧
    MapRender.drawnAccuracyRadius accuracy ≤ 100 ∧
    (200 ≤ accuracy → accuracy ≤ 1000 →
      MapRender.drawnAccuracyRadius accuracy = accuracy / 10) := by
  refine ⟨?_, ?_, ?_⟩
  · rw [MapRender.drawnAccuracyRadius]
    rcases le_total (accuracy / 10) 20 with h | h
    · rw [max_eq_right h]; norm_num
    · rw [max_eq_left h]
      exact le_min h (by norm_num)
  · exact min_le_right _ _
  · intro h1 h2
    rw [MapRender.drawnAccuracyRadius]
    rw [max_eq_left (by linarith), min_eq_left (by linarith)]

/-- Witness for `drawnAccuracyRadius_clamped` at accuracy 500 m. -/
theorem drawnAccuracyRadius_clamped_witness :
    MapRender.drawnAccuracyRadius 500 = 50 ∧ 20 ≤ MapRender.drawnAccuracyRadius 500 := by
  have h := drawnAccuracyRadius_clamped 500
  refine ⟨?_, h.1⟩
  have := h.2.2 (by norm_num) (by norm_num)
  rw [this]
  norm_num

/-- C1: for every fixed map center and every fixed geographic point with
|lat| < 85, the world-pixel offset of the point from the center computed by
the renderer's projection doubles exactly when the zoom increases from z to
z+1, in both coordinates. -/
theorem worldPixel_offset_doubles (pLat pLon cLat cLon z : ℝ) (h : |pLat| < 85) :
    (MapRender.latLonToWorldPixel pLat pLon (z + 1)).1 -
        (MapRender.latLonToWorldPixel cLat cLon (z + 1)).1 =
      2 * ((MapRender.latLonToWorldPixel pLat pLon z).1 -
        (MapRender.latLonToWorldPixel cLat cLon z).1) ∧
    (MapRender.latLonToWorldPixel pLat pLon (z + 1)).2 -
        (MapRender.latLonToWorldPixel cLat cLon (z + 1)).2 =
      2 * ((MapRender.latLonToWorldPixel pLat pLon z).2 -
        (MapRender.latLonToWorldPixel cLat cLon z).2) := by
  have hpow : (2 : ℝ) ^ (z + 1) = (2 : ℝ) ^ z * 2 := by
    rw [Real.rpow_add (by norm_num : (0 : ℝ) < 2) z 1, Real.rpow_one]
  constructor
  · simp only [MapRender.latLonToWorldPixel, MapRender.TILE_SIZE, hpow]
    ring
  · simp only [MapRender.latLonToWorldPixel, MapRender.TILE_SIZE, hpow]
    ring

/-- Witness for `worldPixel_offset_doubles`: point (10, 20), center (30, 40),
zoom 12 to 13. -/
theorem worldPixel_offset_doubles_witness :
    |(10 : ℝ)| < 85 ∧
    ((MapRender.latLonToWorldPixel 10 20 (12 + 1)).1 -
        (MapRender.latLonToWorldPixel 30 40 (12 + 1)).1 =
      2 * ((MapRender.latLonToWorldPixel 10 20 12).1 -
        (MapRender.latLonToWorldPixel 30 40 12).1)) := by
  exact ⟨by norm_num, (worldPixel_offset_doubles 10 20 30 40 12 (by norm_num)).1⟩

lemma geoLib_latLngToTile_eq (lat lon z : ℝ) :
    GeoLib.latLngToTile lat lon z = MapViewTsx.latLonToTile lat lon z := rfl

lemma geoLib_tileToLatLng_eq (x y z : ℝ) :
    GeoLib.tileToLatLng x y z = MapViewTsx.tileToLatLon x y z := rfl

/-- C9: for every latitude with |lat| < 85, longitude in [-180, 180] and
every zoom level, composing the geographic-to-tile projection with its
inverse reproduces the input coordinates exactly under real-number
semantics, both for `tileToLatLon ∘ latLonToTile` (MapView.tsx) and for
`tileToLatLng ∘ latLngToTile` (src/lib/geo). -/
theorem geoToTile_tileToGeo_roundtrip (lat lon z : ℝ) (h85 : |lat| < 85)
    (hlon1 : -180 ≤ lon) (hlon2 : lon ≤ 180) :
    MapViewTsx.tileToLatLon (MapViewTsx.latLonToTile lat lon z).1
        (MapViewTsx.latLonToTile lat lon z).2 z = (lat, lon) ∧
    GeoLib.tileToLatLng (GeoLib.latLngToTile lat lon z).1
        (GeoLib.latLngToTile lat lon z).2 z = (lat, lon) := by
  have main : MapViewTsx.tileToLatLon (MapViewTsx.latLonToTile lat lon z).1
      (MapViewTsx.latLonToTile lat lon z).2 z = (lat, lon) := by
    simp only [MapViewTsx.latLonToTile, MapViewTsx.tileToLatLon, Prod.mk.injEq]
    have hpi := Real.pi_pos
    have hn : (0 : ℝ) < (2 : ℝ) ^ z := Real.rpow_pos_of_pos (by norm_num) z
    set n := (2 : ℝ) ^ z with hndef
    set phi := lat * Real.pi / 180 with hphi
    have habs : |phi| < Real.pi / 2 := by
      rw [hphi, show lat * Real.pi / 180 = lat * (Real.pi / 180) by ring, abs_mul,
        abs_of_pos (by positivity : (0 : ℝ) < Real.pi / 180)]
      have h1 : |lat| * (Real.pi / 180) < 85 * (Real.pi / 180) :=
        mul_lt_mul_of_pos_right h85 (by positivity)
      nlinarith
    have hmem : phi ∈ Set.Ioo (-(Real.pi / 2)) (Real.pi / 2) :=
      ⟨by linarith [(abs_lt.mp habs).1], (abs_lt.mp habs).2⟩
    have hcos : 0 < Real.cos phi := Real.cos_pos_of_mem_Ioo hmem
    have hsin : -1 < Real.sin phi := by
      have h := Real.sin_lt_sin_of_lt_of_le_pi_div_two (le_refl (-(Real.pi / 2)))
        (le_of_lt hmem.2) hmem.1
      rwa [Real.sin_neg, Real.sin_pi_div_two] at h
    have ht : Real.tan phi + 1 / Real.cos phi = (1 + Real.sin phi) / Real.cos phi := by
      rw [Real.tan_eq_sin_div_cos]
      field_simp
      ring
    have htpos : 0 < Real.tan phi + 1 / Real.cos phi := by
      rw [ht]
      exact div_pos (by linarith) hcos
    have harg : Real.pi * (1 - 2 * (((1 - Real.log (Real.tan phi + 1 / Real.cos phi) /
        Real.pi) / 2) * n) / n) = Real.log (Real.tan phi + 1 / Real.cos phi) := by
      field_simp
      ring
    have hkey : Real.sinh (Real.log (Real.tan phi + 1 / Real.cos phi)) = Real.tan phi := by
      rw [Real.sinh_eq, Real.exp_neg, Real.exp_log htpos, ht, inv_div,
        Real.tan_eq_sin_div_cos]
      have hc : Real.cos phi ≠ 0 := ne_of_gt hcos
      have hs : (1 : ℝ) + Real.sin phi ≠ 0 := by linarith
      field_simp
      nlinarith [Real.sin_sq_add_cos_sq phi]
    constructor
    · rw [harg, hkey, Real.arctan_tan hmem.1 hmem.2, hphi]
      field_simp
    · field_simp
      ring
  refine ⟨main, ?_⟩
  rw [geoLib_latLngToTile_eq, geoLib_tileToLatLng_eq]
  exact main

/-- Witness for `geoToTile_tileToGeo_roundtrip` at latitude 0, longitude 0,
zoom 1. -/
theorem geoToTile_tileToGeo_roundtrip_witness :
    |(0 : ℝ)| < 85 ∧ (-180 : ℝ) ≤ 0 ∧ (0 : ℝ) ≤ 180 ∧
    MapViewTsx.tileToLatLon (MapViewTsx.latLonToTile 0 0 1).1
      (MapViewTsx.latLonToTile 0 0 1).2 1 = (0, 0) := by
  refine ⟨by norm_num, by norm_num, by norm_num, ?_⟩
  exact (geoToTile_tileToGeo_roundtrip 0 0 1 (by norm_num) (by norm_num) (by norm_num)).1

lemma calculateDistance_same_lon (lat1 lat2 lon : ℝ) (h : |lat2 - lat1| < 180) :
    Tracker.calculateDistance lat1 lon lat2 lon =
      6371000 * (|lat2 - lat1| * Real.pi / 180) := by
  have hpi := Real.pi_pos
  simp only [Tracker.calculateDistance, sub_self, zero_mul, zero_div, Real.sin_zero,
    mul_zero, add_zero]
  set th := (lat2 - lat1) * Real.pi / 180 / 2 with hth
  have habs_eq : |th| = |lat2 - lat1| * (Real.pi / 360) := by
    rw [hth, show (lat2 - lat1) * Real.pi / 180 / 2 = (lat2 - lat1) * (Real.pi / 360) by
      ring, abs_mul, abs_of_pos (by positivity : (0 : ℝ) < Real.pi / 360)]
  have habs : |th| < Real.pi / 2 := by
    rw [habs_eq]
    have := mul_lt_mul_of_pos_right h (by positivity : (0 : ℝ) < Real.pi / 360)
    nlinarith
  have hth_nonneg : (0 : ℝ) ≤ |th| := abs_nonneg th
  have hsin_nonneg : 0 ≤ Real.sin |th| :=
    Real.sin_nonneg_of_nonneg_of_le_pi hth_nonneg (by linarith)
  have hcos_pos : 0 < Real.cos |th| :=
    Real.cos_pos_of_mem_Ioo ⟨by linarith, habs⟩
  have hsinsq : Real.sin th * Real.sin th = Real.sin |th| * Real.sin |th| := by
    rcases abs_cases th with ⟨he, _⟩ | ⟨he, _⟩
    · rw [he]
    · rw [he, Real.sin_neg]; ring
  have hpyth : Real.sin |th| * Real.sin |th| + Real.cos |th| * Real.cos |th| = 1 := by
    have := Real.sin_sq_add_cos_sq |th|
    nlinarith
  have e1 : Real.sqrt (Real.sin th * Real.sin th) = Real.sin |th| := by
    rw [hsinsq, Real.sqrt_mul_self hsin_nonneg]
  have e2 : Real.sqrt (1 - Real.sin th * Real.sin th) = Real.cos |th| := by
    rw [hsinsq, show 1 - Real.sin |th| * Real.sin |th| = Real.cos |th| * Real.cos |th| by
      linarith, Real.sqrt_mul_self hcos_pos.le]
  rw [e1, e2]
  have e3 : Tracker.atan2 (Real.sin |th|) (Real.cos |th|) = |th| := by
    rw [Tracker.atan2, if_pos hcos_pos, ← Real.tan_eq_sin_div_cos,
      Real.arctan_tan (by linarith) habs]
  rw [e3, habs_eq]
  ring

lemma distAB_le_one :
    Tracker.calculateDistance 0 0 (8 / 1000000) 0 ≤ 1 := by
  have habs : |(8 : ℝ) / 1000000 - 0| = 8 / 1000000 := by
    rw [sub_zero, abs_of_nonneg (by norm_num : (0 : ℝ) ≤ 8 / 1000000)]
  rw [calculateDistance_same_lon 0 (8 / 1000000) 0 (by rw [habs]; norm_num), habs]
  nlinarith [Real.pi_lt_d2]

lemma distBC_gt_one :
    1 < Tracker.calculateDistance (8 / 1000000) 0 (-(5 / 1000000)) 0 := by
  have habs : |(-((5 : ℝ) / 1000000)) - 8 / 1000000| = 13 / 1000000 := by
    rw [show (-((5 : ℝ) / 1000000)) - 8 / 1000000 = -(13 / 1000000) by norm_num, abs_neg,
      abs_of_nonneg (by norm_num : (0 : ℝ) ≤ 13 / 1000000)]
  rw [calculateDistance_same_lon (8 / 1000000) (-(5 / 1000000)) 0 (by rw [habs]; norm_num),
    habs]
  nlinarith [Real.pi_gt_three]

lemma distAC_le_one :
    Tracker.calculateDistance 0 0 (-(5 / 1000000)) 0 ≤ 1 := by
  have habs : |(-((5 : ℝ) / 1000000)) - 0| = 5 / 1000000 := by
    rw [sub_zero, abs_neg, abs_of_nonneg (by norm_num : (0 : ℝ) ≤ 5 / 1000000)]
  rw [calculateDistance_same_lon 0 (-(5 / 1000000)) 0 (by rw [habs]; norm_num), habs]
  nlinarith [Real.pi_lt_d2]

lemma trailRun_two :
    Tracker.handleLocationUpdate (Tracker.handleLocationUpdate Tracker.initTrackState
        Tracker.fixA) Tracker.fixB =
      ⟨[Tracker.toTrailPoint Tracker.fixA], 0, some Tracker.fixB⟩ := by
  have h1 : Tracker.handleLocationUpdate Tracker.initTrackState Tracker.fixA =
      ⟨[Tracker.toTrailPoint Tracker.fixA], 0, some Tracker.fixA⟩ := rfl
  rw [h1]
  simp only [Tracker.handleLocationUpdate, Tracker.fixA, Tracker.fixB]
  rw [if_neg (not_lt.mpr distAB_le_one)]

lemma trailRun_three :
    Tracker.handleLocationUpdate (Tracker.handleLocationUpdate
        (Tracker.handleLocationUpdate Tracker.initTrackState Tracker.fixA)
        Tracker.fixB) Tracker.fixC =
      ⟨[Tracker.toTrailPoint Tracker.fixA, Tracker.toTrailPoint Tracker.fixC],
        0 + Tracker.calculateDistance (8 / 1000000) 0 (-(5 / 1000000)) 0,
        some Tracker.fixC⟩ := by
  rw [trailRun_two]
  simp only [Tracker.handleLocationUpdate, Tracker.fixB, Tracker.fixC]
  rw [if_pos distBC_gt_one]
  simp [Tracker.toTrailPoint, Tracker.fixA, Tracker.fixC]

/-- C3 counterexample: starting a fresh session with fix A = (0, 0), then
fix B 0.000008° north (≈0.89 m from A: not appended, but stored as the
previous fix), the next fix C = (-0.000005, 0) lies ≈0.56 m from the last
trail point A — within 1 m, so the claim says ingesting C changes nothing —
yet the code measures from the previous fix B (≈1.45 m away) and therefore
appends C to the trail and increases the accumulated distance. -/
theorem fix_near_trail_point_still_appended :
    Tracker.calculateDistance (Tracker.toTrailPoint Tracker.fixA).latitude
        (Tracker.toTrailPoint Tracker.fixA).longitude
        Tracker.fixC.latitude Tracker.fixC.longitude ≤ 1 ∧
    (Tracker.handleLocationUpdate (Tracker.handleLocationUpdate Tracker.initTrackState
        Tracker.fixA) Tracker.fixB).trail = [Tracker.toTrailPoint Tracker.fixA] ∧
    (Tracker.handleLocationUpdate (Tracker.handleLocationUpdate
        (Tracker.handleLocationUpdate Tracker.initTrackState Tracker.fixA)
        Tracker.fixB) Tracker.fixC).trail ≠
      (Tracker.handleLocationUpdate (Tracker.handleLocationUpdate
        Tracker.initTrackState Tracker.fixA) Tracker.fixB).trail ∧
    (Tracker.handleLocationUpdate (Tracker.handleLocationUpdate
        (Tracker.handleLocationUpdate Tracker.initTrackState Tracker.fixA)
        Tracker.fixB) Tracker.fixC).totalDistance ≠
      (Tracker.handleLocationUpdate (Tracker.handleLocationUpdate
        Tracker.initTrackState Tracker.fixA) Tracker.fixB).totalDistance := by
  refine ⟨?_, ?_, ?_, ?_⟩
  · simpa [Tracker.toTrailPoint, Tracker.fixA, Tracker.fixC] using distAC_le_one
  · rw [trailRun_two]
  · rw [trailRun_three, trailRun_two]
    intro heq
    have hlen := congrArg List.length heq
    simp at hlen
  · rw [trailRun_three, trailRun_two]
    simp only [zero_add]
    intro heq
    have := distBC_gt_one
    rw [heq] at this
    norm_num at this

lemma handleLocationUpdate_step_cases (s : Tracker.TrackState) (p : Tracker.Fix) :
    (∀ q, s.prev = some q →
      (Tracker.calculateDistance q.latitude q.longitude p.latitude p.longitude ≤ 1 →
        Tracker.handleLocationUpdate s p = { s with prev := some p }) ∧
      (1 < Tracker.calculateDistance q.latitude q.longitude p.latitude p.longitude →
        Tracker.handleLocationUpdate s p =
          ⟨s.trail ++ [Tracker.toTrailPoint p],
            s.totalDistance +
              Tracker.calculateDistance q.latitude q.longitude p.latitude p.longitude,
            some p⟩)) ∧
    (s.prev = none →
      Tracker.handleLocationUpdate s p =
        ⟨[Tracker.toTrailPoint p], s.totalDistance, some p⟩) := by
  constructor
  · intro q hq
    constructor
    · intro hle
      simp only [Tracker.handleLocationUpdate, hq]
      rw [if_neg (not_lt.mpr hle)]
    · intro hgt
      simp only [Tracker.handleLocationUpdate, hq]
      rw [if_pos hgt]
  · intro hnone
    simp only [Tracker.handleLocationUpdate, hnone]

/-- C3 (amended): the 1 m filter of `handleLocationUpdate` measures from the
previously accepted fix (`previousPositionRef`), not from the previous trail
point: a fix at most 1 m from the *previous fix* leaves trail and
accumulated distance unchanged (only the previous-fix reference advances); a
fix farther than 1 m from the previous fix appends exactly one trail point
and adds exactly that fix-to-fix distance; the very first fix of a session
is recorded as a trail point unconditionally. -/
theorem ingestion_threshold_vs_previous_fix (s : Tracker.TrackState) (p : Tracker.Fix) :
    (∀ q, s.prev = some q →
      (Tracker.calculateDistance q.latitude q.longitude p.latitude p.longitude ≤ 1 →
        Tracker.handleLocationUpdate s p = { s with prev := some p }) ∧
      (1 < Tracker.calculateDistance q.latitude q.longitude p.latitude p.longitude →
        Tracker.handleLocationUpdate s p =
          ⟨s.trail ++ [Tracker.toTrailPoint p],
            s.totalDistance +
              Tracker.calculateDistance q.latitude q.longitude p.latitude p.longitude,
            some p⟩)) ∧
    (s.prev = none →
      Tracker.handleLocationUpdate s p =
        ⟨[Tracker.toTrailPoint p], s.totalDistance, some p⟩) :=
  handleLocationUpdate_step_cases s p

/-- Witness for `ingestion_threshold_vs_previous_fix`: the first fix of a
fresh session is recorded unconditionally. -/
theorem ingestion_threshold_vs_previous_fix_witness :
    Tracker.handleLocationUpdate Tracker.initTrackState Tracker.fixA =
      ⟨[Tracker.toTrailPoint Tracker.fixA], Tracker.initTrackState.totalDistance,
        some Tracker.fixA⟩ :=
  (ingestion_threshold_vs_previous_fix Tracker.initTrackState Tracker.fixA).2 rfl

/-- C2 counterexample: after ingesting the fix sequence A, B, C of
`fix_near_trail_point_still_appended` from a fresh session, the accumulated
distance is the B-to-C distance (≈1.45 m) while the recorded trail is
[A, C], whose consecutive-point distance sum is the A-to-C distance
(≈0.56 m): the accumulated total does not equal the sum of great-circle
distances between consecutive trail points. -/
theorem totalDistance_ne_trail_sum :
    (Tracker.handleLocationUpdate (Tracker.handleLocationUpdate
        (Tracker.handleLocationUpdate Tracker.initTrackState Tracker.fixA)
        Tracker.fixB) Tracker.fixC).totalDistance ≠
      Tracker.trailDistanceSum
        (Tracker.handleLocationUpdate (Tracker.handleLocationUpdate
          (Tracker.handleLocationUpdate Tracker.initTrackState Tracker.fixA)
          Tracker.fixB) Tracker.fixC).trail := by
  rw [trailRun_three]
  simp only [Tracker.trailDistanceSum, Tracker.toTrailPoint, Tracker.fixA, Tracker.fixC,
    zero_add, add_zero]
  intro heq
  have h1 := distBC_gt_one
  have h2 := distAC_le_one
  rw [heq] at h1
  linarith

lemma fixPairSum_fold (fs : List Tracker.Fix) :
    ∀ (s : Tracker.TrackState) (q : Tracker.Fix), s.prev = some q →
      (fs.foldl Tracker.handleLocationUpdate s).totalDistance =
        s.totalDistance + Tracker.fixPairSum q fs := by
  induction fs with
  | nil => intro s q _; simp [Tracker.fixPairSum]
  | cons p rest ih =>
      intro s q hq
      have hstep := handleLocationUpdate_step_cases s p
      rcases le_or_lt (Tracker.calculateDistance q.latitude q.longitude
          p.latitude p.longitude) 1 with hle | hgt
      · have he := (hstep.1 q hq).1 hle
        have hprev : (Tracker.handleLocationUpdate s p).prev = some p := by
          rw [he]
        have := ih (Tracker.handleLocationUpdate s p) p hprev
        simp only [List.foldl_cons]
        rw [this, he]
        simp only [Tracker.fixPairSum]
        rw [if_neg (not_lt.mpr hle)]
        ring
      · have he := (hstep.1 q hq).2 hgt
        have hprev : (Tracker.handleLocationUpdate s p).prev = some p := by
          rw [he]
        have := ih (Tracker.handleLocationUpdate s p) p hprev
        simp only [List.foldl_cons]
        rw [this, he]
        simp only [Tracker.fixPairSum]
        rw [if_pos hgt]
        ring

/-- C2 (amended): for every fix sequence ingested from a fresh session, the
accumulated `totalDistance` equals the sum over consecutive *accepted fixes*
of their great-circle distance, counting exactly the pairs more than 1 m
apart — distances are measured between consecutive fixes (the
`previousPositionRef`), not between consecutive recorded trail points. -/
theorem totalDistance_eq_fixPairSum (f : Tracker.Fix) (rest : List Tracker.Fix) :
    ((f :: rest).foldl Tracker.handleLocationUpdate Tracker.initTrackState).totalDistance
      = Tracker.fixPairSum f rest := by
  simp only [List.foldl_cons]
  have h1 : Tracker.handleLocationUpdate Tracker.initTrackState f =
      ⟨[Tracker.toTrailPoint f], 0, some f⟩ := rfl
  rw [h1]
  have := fixPairSum_fold rest ⟨[Tracker.toTrailPoint f], 0, some f⟩ f rfl
  rw [this]
  ring
